import Mathlib

/-!
Shallow embedding of the offline-first task sync service
(TaskService and SyncService) and of the sync queue protocol.

Modelling conventions:
* timestamps (ISO-8601 strings compared via Date.getTime in the source)
  are modelled as natural numbers (milliseconds since epoch); SQL
  CURRENT_TIMESTAMP and new Date() become explicit `now` parameters;
* uuidv4() becomes an explicit fresh-id parameter;
* JSON.stringify / JSON.parse on task payloads are modelled as the
  identity, so a queue item stores the Task payload directly;
* the sqlite tables `tasks` and `sync_queue` are modelled as lists of
  rows in insertion order; SELECT ... ORDER BY is a stable sort,
  UPDATE ... WHERE maps over all matching rows, DELETE ... WHERE filters;
* the HTTP batch exchange (processBatch over the network) is a
  parameter of `sync`: a function from the batch to `Except String
  BatchSyncResponse`, where `Except.error msg` models the call throwing.
-/

namespace SyncSpec

/-- A task row, after `mapRowToTask` (src/types Task interface). -/
structure Task where
  id : String
  title : String
  description : String
  completed : Bool
  is_deleted : Bool
  sync_status : String
  created_at : Nat
  updated_at : Nat
  last_synced_at : Option Nat
  server_id : Option String
  deriving DecidableEq

/-- A sync_queue row. `updated_at` and `status` are columns written by
the UPDATE statements in addToSyncQueue / handleSyncError (NULL on
insert); `data` is the serialized task payload (serialization modelled
as identity). -/
structure SyncQueueItem where
  id : String
  task_id : String
  operation : String
  data : Task
  created_at : Nat
  updated_at : Option Nat
  retry_count : Nat
  error_message : Option String
  status : Option String
  deriving DecidableEq

/-- The SyncResult summary returned by sync(). -/
structure SyncResult where
  success : Nat
  failed : Nat
  conflicts : Nat
  total : Nat
  deriving DecidableEq

/-- One entry of a BatchSyncResponse. The optional booleans
success/conflict of the source are modelled as Bool (absent = false). -/
structure BatchResultItem where
  localId : String
  success : Bool
  conflict : Bool
  error : Option String
  data : Option Task
  serverData : Option Task
  deriving DecidableEq

/-- Response of the batch exchange. -/
structure BatchSyncResponse where
  results : List BatchResultItem
  deriving DecidableEq

/-- The two sqlite tables the services touch. -/
structure DBState where
  tasks : List Task
  sync_queue : List SyncQueueItem
  deriving DecidableEq

/-- Partial Task (caller-supplied fields, each possibly absent). -/
structure PartialTask where
  id : Option String := none
  title : Option String := none
  description : Option String := none
  completed : Option Bool := none
  is_deleted : Option Bool := none
  sync_status : Option String := none
  created_at : Option Nat := none
  updated_at : Option Nat := none
  last_synced_at : Option Nat := none
  server_id : Option String := none
  deriving DecidableEq

namespace TaskService

/-- getTask: SELECT * FROM tasks WHERE id = ? AND is_deleted = 0
(first matching row in table order). -/
def getTask (tasks : List Task) (id : String) : Option Task :=
  tasks.find? (fun t => t.id = id && !t.is_deleted)

/-- getAllTasks: SELECT * FROM tasks WHERE is_deleted = 0
ORDER BY created_at DESC (stable sort of the non-deleted rows). -/
def getAllTasks (tasks : List Task) : List Task :=
  (tasks.filter (fun t => !t.is_deleted)).insertionSort
    (fun a b => b.created_at ≤ a.created_at)

/-- createTask: builds the new task (title/description defaulted with
the JS || operator, all other fields fixed) and INSERTs it; returns the
task and the new table. -/
def createTask (tasks : List Task) (taskData : PartialTask)
    (newId : String) (now : Nat) : Task × List Task :=
  let task : Task :=
    { id := newId
      title := taskData.title.getD ""
      description := taskData.description.getD ""
      completed := false
      is_deleted := false
      sync_status := "pending"
      created_at := now
      updated_at := now
      last_synced_at := none
      server_id := none }
  (task, tasks ++ [task])

/-- updateTask: guarded by getTask; applies only the defined fields of
the update, always bumps updated_at and resets sync_status to pending;
returns getTask on the new table. -/
def updateTask (tasks : List Task) (id : String) (updates : PartialTask)
    (now : Nat) : Option Task × List Task :=
  match getTask tasks id with
  | none => (none, tasks)
  | some _ =>
    let tasks2 := tasks.map fun t =>
      if t.id = id then
        { t with
          title := updates.title.getD t.title
          description := updates.description.getD t.description
          completed := updates.completed.getD t.completed
          updated_at := now
          sync_status := "pending" }
      else t
    (getTask tasks2 id, tasks2)

/-- deleteTask: guarded by getTask; soft delete (is_deleted = 1,
updated_at bumped, sync_status reset to pending). -/
def deleteTask (tasks : List Task) (id : String) (now : Nat) :
    Bool × List Task :=
  match getTask tasks id with
  | none => (false, tasks)
  | some _ =>
    (true, tasks.map fun t =>
      if t.id = id then
        { t with is_deleted := true, updated_at := now,
                 sync_status := "pending" }
      else t)

end TaskService

namespace SyncService

/-- MAX_RETRIES of SyncService. -/
def MAX_RETRIES : Nat := 3

/-- resolveConflict: last write wins on updated_at; the server task is
taken only when its timestamp is strictly later (serverTime > localTime),
so ties fall to the local task. -/
def resolveConflict (localTask serverTask : Task) : Task :=
  if serverTask.updated_at > localTask.updated_at then serverTask
  else localTask

/-- SQL WHERE task_id = ? AND operation = ? as a row predicate. -/
def matchesPair (taskId operation : String) (i : SyncQueueItem) : Bool :=
  i.task_id = taskId && i.operation = operation

/-- addToSyncQueue: upsert keyed on (task_id, operation). An existing
row gets data overwritten and retry_count reset to 0; otherwise a fresh
row is inserted with retry_count 0. -/
def addToSyncQueue (st : DBState) (taskId operation : String)
    (data : Task) (newId : String) (now : Nat) : DBState :=
  let existing := st.sync_queue.filter (matchesPair taskId operation)
  if existing.length > 0 then
    { st with sync_queue := st.sync_queue.map fun i =>
        if matchesPair taskId operation i then
          { i with data := data, retry_count := 0, updated_at := some now }
        else i }
  else
    { st with sync_queue := st.sync_queue ++
        [{ id := newId, task_id := taskId, operation := operation,
           data := data, created_at := now, updated_at := none,
           retry_count := 0, error_message := none, status := none }] }

/-- updateSyncStatus: UPDATE tasks SET sync_status (and server_id when
the server data carries a truthy id, and last_synced_at when the new
status is synced) WHERE id = taskId. -/
def updateSyncStatus (tasks : List Task) (taskId status : String)
    (serverData : Option Task) (now : Nat) : List Task :=
  tasks.map fun t =>
    if t.id = taskId then
      { t with
        sync_status := status
        server_id :=
          match serverData with
          | some s => if s.id = "" then t.server_id else some s.id
          | none => t.server_id
        last_synced_at :=
          if status = "synced" then some now else t.last_synced_at }
    else t

/-- handleSyncError: increments the retry count; at the ceiling the row
is kept with status failed and the task is forced to error status,
below it the row just records the new count and message. The queue row
is never deleted here. -/
def handleSyncError (st : DBState) (item : SyncQueueItem) (errMsg : String)
    (now : Nat) : DBState :=
  let newRetryCount := item.retry_count + 1
  if newRetryCount ≥ MAX_RETRIES then
    { tasks := updateSyncStatus st.tasks item.task_id "error" none now
      sync_queue := st.sync_queue.map fun q =>
        if q.id = item.id then
          { q with retry_count := newRetryCount,
                   error_message := some errMsg,
                   status := some "failed", updated_at := some now }
        else q }
  else
    { st with sync_queue := st.sync_queue.map fun q =>
        if q.id = item.id then
          { q with retry_count := newRetryCount,
                   error_message := some errMsg, updated_at := some now }
        else q }

/-- The JS expression responseItem.error || the Unknown error default
(empty string is falsy). -/
def errorOrUnknown (e : Option String) : String :=
  match e with
  | some s => if s = "" then "Unknown error" else s
  | none => "Unknown error"

/-- Per-item outcome handling inside a batch: find the response entry by
localId = task_id; success removes the row and marks the task synced;
conflict resolves, persists the winner, marks synced, removes the row;
anything else goes to handleSyncError. -/
def processItem (now : Nat) (results : List BatchResultItem)
    (acc : DBState × SyncResult) (item : SyncQueueItem) :
    DBState × SyncResult :=
  let st := acc.1
  let res := acc.2
  match results.find? (fun r => r.localId = item.task_id) with
  | some r =>
    if r.success then
      ({ tasks := updateSyncStatus st.tasks item.task_id "synced" r.data now
         sync_queue := st.sync_queue.filter (fun q => !(q.id = item.id)) },
       { res with success := res.success + 1 })
    else if r.conflict then
      let localTask := item.data
      let serverTask := r.serverData.getD localTask
      let resolved := resolveConflict localTask serverTask
      let tasks1 := (TaskService.updateTask st.tasks resolved.id
        { title := some resolved.title,
          description := some resolved.description,
          completed := some resolved.completed } now).2
      ({ tasks := updateSyncStatus tasks1 item.task_id "synced"
           (some resolved) now
         sync_queue := st.sync_queue.filter (fun q => !(q.id = item.id)) },
       { res with conflicts := res.conflicts + 1 })
    else
      (handleSyncError st item (errorOrUnknown r.error) now,
       { res with failed := res.failed + 1 })
  | none =>
      (handleSyncError st item "Unknown error" now,
       { res with failed := res.failed + 1 })

/-- The catch branch of a batch: every item of the batch goes through
handleSyncError with the message of the thrown error, counting each as
failed. -/
def processErroredBatch (now : Nat) (msg : String)
    (acc : DBState × SyncResult) (batch : List SyncQueueItem) :
    DBState × SyncResult :=
  batch.foldl
    (fun a it => (handleSyncError a.1 it msg now,
                  { a.2 with failed := a.2.failed + 1 })) acc

/-- One round of the batch loop: call the transmitter on the batch; on a
response handle each item against results, on a throw run the catch
branch. -/
def processOneBatch (now : Nat)
    (transmit : List SyncQueueItem → Except String BatchSyncResponse)
    (acc : DBState × SyncResult) (batch : List SyncQueueItem) :
    DBState × SyncResult :=
  match transmit batch with
  | Except.ok resp => batch.foldl (processItem now resp.results) acc
  | Except.error msg => processErroredBatch now msg acc batch

/-- Fuel-indexed chunking loop; the fuel is a termination device, any
fuel at least the list length gives the batching of the source loop
(for i = 0; i < length; i += size). -/
def makeBatchesFuel (size : Nat) : Nat → List SyncQueueItem → List (List SyncQueueItem)
  | _, [] => []
  | 0, _ => []
  | fuel + 1, l => l.take size :: makeBatchesFuel size fuel (l.drop size)

/-- Partition into consecutive batches of at most size elements (the
source loop diverges on size 0; that configuration is excluded by the
positive-batch-size hypothesis wherever it matters). -/
def makeBatches (size : Nat) (l : List SyncQueueItem) : List (List SyncQueueItem) :=
  if size = 0 then [] else makeBatchesFuel size l.length l

/-- SELECT * FROM sync_queue ORDER BY created_at ASC (stable sort). -/
def drainQueue (q : List SyncQueueItem) : List SyncQueueItem :=
  q.insertionSort (fun a b => a.created_at ≤ b.created_at)

/-- sync(): drain the queue oldest first, set total to the drained
count, return immediately when empty, otherwise process the batches in
order threading the database state and the result counters. -/
def sync (st : DBState) (batchSize : Nat)
    (transmit : List SyncQueueItem → Except String BatchSyncResponse)
    (now : Nat) : DBState × SyncResult :=
  let queueItems := drainQueue st.sync_queue
  let res0 : SyncResult :=
    { success := 0, failed := 0, conflicts := 0, total := queueItems.length }
  if queueItems.length = 0 then (st, res0)
  else (makeBatches batchSize queueItems).foldl
    (processOneBatch now transmit) (st, res0)

end SyncService

/-- Number of queue rows for a given (task_id, operation) pair. -/
def countPair (q : List SyncQueueItem) (taskId operation : String) : Nat :=
  q.countP (SyncService.matchesPair taskId operation)

/-- Concrete local task used in counterexamples and witnesses. -/
def taskA : Task :=
  { id := "t1", title := "A", description := "", completed := false,
    is_deleted := false, sync_status := "pending", created_at := 100,
    updated_at := 100, last_synced_at := none, server_id := none }

/-- Concrete server-side task with the same updated_at as taskA but
different content. -/
def taskB : Task :=
  { id := "t1", title := "B", description := "remote version",
    completed := true, is_deleted := false, sync_status := "synced",
    created_at := 90, updated_at := 100, last_synced_at := none,
    server_id := none }

/-- A pending create queue item for taskA. -/
def demoItem : SyncQueueItem :=
  { id := "q1", task_id := "t1", operation := "create", data := taskA,
    created_at := 101, updated_at := none, retry_count := 0,
    error_message := none, status := none }

/-- A transmitter that reports success for every submitted item. -/
def demoTransmit : List SyncQueueItem → Except String BatchSyncResponse :=
  fun items => Except.ok
    { results := items.map fun it =>
        { localId := it.task_id, success := true, conflict := false,
          error := none, data := some it.data, serverData := none } }

/-- A transmitter whose exchange always throws. -/
def errTransmit : List SyncQueueItem → Except String BatchSyncResponse :=
  fun _ => Except.error "network down"

/-- Task referenced by the retry-ceiling scenario. -/
def c2Task : Task :=
  { id := "t2", title := "B", description := "", completed := false,
    is_deleted := false, sync_status := "pending", created_at := 50,
    updated_at := 50, last_synced_at := none, server_id := none }

/-- Queue item that has already failed twice (retry_count = 2). -/
def c2Item : SyncQueueItem :=
  { id := "q2", task_id := "t2", operation := "update", data := c2Task,
    created_at := 60, updated_at := none, retry_count := 2,
    error_message := some "earlier failure", status := none }

/-- Database state for the retry-ceiling scenario. -/
def c2St : DBState := { tasks := [c2Task], sync_queue := [c2Item] }

/-- State after the sync pass that lifts c2Item to the retry ceiling. -/
def c2St1 : DBState := (SyncService.sync c2St 10 errTransmit 100).1

/-- A 25-element queue, for the batch-count example. -/
def queue25 : List SyncQueueItem :=
  (List.range 25).map fun n =>
    { id := toString n, task_id := toString n, operation := "create",
      data := taskA, created_at := n, updated_at := none,
      retry_count := 0, error_message := none, status := none }

/-- Batch response entry reporting success for taskA. -/
def demoEntry : BatchResultItem :=
  { localId := "t1", success := true, conflict := false, error := none,
    data := some taskA, serverData := none }

/-- Batch response entry for c2Item that reports neither success nor
conflict and carries no error message. -/
def c7Entry : BatchResultItem :=
  { localId := "t2", success := false, conflict := false, error := none,
    data := none, serverData := none }

/-- Singleton response list around c7Entry. -/
def c7Results : List BatchResultItem := [c7Entry]

instance : IsTotal SyncQueueItem (fun a b => a.created_at ≤ b.created_at) :=
  ⟨fun a b => Nat.le_total a.created_at b.created_at⟩

instance : IsTrans SyncQueueItem (fun a b => a.created_at ≤ b.created_at) :=
  ⟨fun _ _ _ h1 h2 => Nat.le_trans h1 h2⟩

/-! Theorems. -/

open SyncService TaskService

/-- C1 (amended): resolveConflict is deterministic last-write-wins on
updated_at: a strictly later remote wins, a strictly later local wins,
and equal timestamps return the local version. -/
theorem C1_resolveConflict_last_write_wins (localTask serverTask : Task) :
    (localTask.updated_at < serverTask.updated_at →
      resolveConflict localTask serverTask = serverTask) ∧
    (serverTask.updated_at < localTask.updated_at →
      resolveConflict localTask serverTask = localTask) ∧
    (localTask.updated_at = serverTask.updated_at →
      resolveConflict localTask serverTask = localTask) := by
  refine ⟨fun h => ?_, fun h => ?_, fun h => ?_⟩ <;>
    simp [resolveConflict] <;> omega

/-- C1 counterexample: two versions with equal updated_at; the claim
says the remote (server) version is returned, but resolveConflict
returns the local one. -/
theorem C1_counterexample :
    taskA.updated_at = taskB.updated_at ∧
    resolveConflict taskA taskB ≠ taskB ∧
    resolveConflict taskA taskB = taskA := by
  decide

/-- C1 witness: the amended theorem applied at concrete tasks. -/
theorem C1_witness :
    resolveConflict c2Task taskA = taskA ∧
    resolveConflict taskA c2Task = taskA ∧
    resolveConflict taskA taskB = taskA := by
  refine ⟨?_, ?_, ?_⟩
  · exact (C1_resolveConflict_last_write_wins c2Task taskA).1 (by decide)
  · exact (C1_resolveConflict_last_write_wins taskA c2Task).2.1 (by decide)
  · exact (C1_resolveConflict_last_write_wins taskA taskB).2.2 (by decide)

/-- C9: createTask returns and persists a task in a fixed initial state
regardless of caller-supplied fields beyond title and description:
completed and is_deleted false, sync_status pending, no last sync
timestamp, no server id, created_at equal to updated_at, and id taken
from the generated uuid, not from the caller. -/
theorem C9_createTask_initial_state (tasks : List Task)
    (taskData : PartialTask) (newId : String) (now : Nat) :
    (createTask tasks taskData newId now).1.id = newId ∧
    (createTask tasks taskData newId now).1.completed = false ∧
    (createTask tasks taskData newId now).1.is_deleted = false ∧
    (createTask tasks taskData newId now).1.sync_status = "pending" ∧
    (createTask tasks taskData newId now).1.last_synced_at = none ∧
    (createTask tasks taskData newId now).1.server_id = none ∧
    (createTask tasks taskData newId now).1.created_at =
      (createTask tasks taskData newId now).1.updated_at ∧
    (createTask tasks taskData newId now).2 =
      tasks ++ [(createTask tasks taskData newId now).1] := by
  refine ⟨rfl, rfl, rfl, rfl, rfl, rfl, rfl, rfl⟩

/-- After mapping the soft-delete update over the table, no row with the
deleted id passes the getTask filter. -/
theorem getTask_after_softDelete (tasks : List Task) (id : String) (now : Nat) :
    getTask (tasks.map fun t =>
      if t.id = id then
        { t with is_deleted := true, updated_at := now,
                 sync_status := "pending" }
      else t) id = none := by
  rw [getTask, List.find?_eq_none]
  intro t ht
  rcases List.mem_map.1 ht with ⟨t0, _, rfl⟩
  by_cases h0 : t0.id = id <;> simp [h0]

/-- C10: once deleteTask succeeds, the task is gone from the read/write
interface: getTask is none, getAllTasks omits the id, updateTask
returns none (and changes nothing), and a second deleteTask returns
false (and changes nothing). -/
theorem C10_deleteTask_absent (tasks : List Task) (id : String)
    (now now2 now3 : Nat) (upd : PartialTask)
    (h : (deleteTask tasks id now).1 = true) :
    getTask (deleteTask tasks id now).2 id = none ∧
    (∀ t ∈ getAllTasks (deleteTask tasks id now).2, t.id ≠ id) ∧
    (updateTask (deleteTask tasks id now).2 id upd now2).1 = none ∧
    (updateTask (deleteTask tasks id now).2 id upd now2).2 =
      (deleteTask tasks id now).2 ∧
    (deleteTask (deleteTask tasks id now).2 id now3).1 = false ∧
    (deleteTask (deleteTask tasks id now).2 id now3).2 =
      (deleteTask tasks id now).2 := by
  have hdel : (deleteTask tasks id now).2 = tasks.map fun t =>
      if t.id = id then
        { t with is_deleted := true, updated_at := now,
                 sync_status := "pending" }
      else t := by
    rw [deleteTask] at h ⊢
    cases hg : getTask tasks id with
    | none => rw [hg] at h; simp at h
    | some t0 => rfl
  have hnone : getTask (deleteTask tasks id now).2 id = none := by
    rw [hdel]; exact getTask_after_softDelete tasks id now
  refine ⟨hnone, ?_, ?_, ?_, ?_, ?_⟩
  · intro t ht hid
    have hmem : t ∈ (deleteTask tasks id now).2.filter
        (fun t => !t.is_deleted) :=
      (List.mem_insertionSort _).1 ht
    have hdel2 : ¬ t.is_deleted := by
      have := List.of_mem_filter hmem
      simpa using this
    have hfound := List.find?_eq_none.1 hnone t (List.mem_of_mem_filter hmem)
    simp [hid, hdel2] at hfound
  · rw [updateTask, hnone]
  · rw [updateTask, hnone]
  · rw [deleteTask, hnone]
  · rw [deleteTask, hnone]

/-- C10 witness: the theorem applied to a one-row table. -/
theorem C10_witness :
    getTask (deleteTask [taskA] "t1" 5).2 "t1" = none ∧
    (deleteTask (deleteTask [taskA] "t1" 5).2 "t1" 7).1 = false := by
  have h := C10_deleteTask_absent [taskA] "t1" 5 6 7 {} (by decide)
  exact ⟨h.1, h.2.2.2.2.1⟩

/-- The overwrite performed by the upsert does not change the
(task_id, operation) key of a row. -/
theorem matchesPair_overwrite (a b : String) (d : Task) (now : Nat)
    (i : SyncQueueItem) :
    matchesPair a b
      { i with data := d, retry_count := 0, updated_at := some now } =
      matchesPair a b i := rfl

/-- countPair after addToSyncQueue, at the enqueued pair: one row
appears when none existed, otherwise the row count at that key is
unchanged. -/
theorem countPair_addToSyncQueue (st : DBState) (tid op : String)
    (d : Task) (nid : String) (now : Nat) :
    countPair (addToSyncQueue st tid op d nid now).sync_queue tid op =
      if countPair st.sync_queue tid op = 0 then 1
      else countPair st.sync_queue tid op := by
  simp only [addToSyncQueue, countPair]
  split
  · next hguard =>
    have h0 : st.sync_queue.countP (matchesPair tid op) ≠ 0 := by
      rw [List.countP_eq_length_filter]
      omega
    rw [if_neg h0, List.countP_map]
    congr 1
    funext i
    by_cases hm : matchesPair tid op i = true <;>
      simp [hm, Function.comp, matchesPair_overwrite]
  · next hguard =>
    have h0 : st.sync_queue.countP (matchesPair tid op) = 0 := by
      rw [List.countP_eq_length_filter]
      omega
    rw [if_pos h0, List.countP_append, h0]
    simp [matchesPair]

/-- Every row matching the enqueued key after addToSyncQueue carries the
latest payload and a zero retry count. -/
theorem data_addToSyncQueue (st : DBState) (tid op : String) (d : Task)
    (nid : String) (now : Nat) :
    ∀ i ∈ (addToSyncQueue st tid op d nid now).sync_queue,
      matchesPair tid op i = true → i.data = d ∧ i.retry_count = 0 := by
  simp only [addToSyncQueue]
  split
  · next hguard =>
    intro i hi hm
    rcases List.mem_map.1 hi with ⟨j, _, rfl⟩
    by_cases hmj : matchesPair tid op j = true
    · simp [hmj]
    · simp [hmj] at hm
  · next hguard =>
    intro i hi hm
    rcases List.mem_append.1 hi with hmem | hmem
    · have h0 : st.sync_queue.filter (matchesPair tid op) = [] := by
        have : (st.sync_queue.filter (matchesPair tid op)).length = 0 := by
          omega
        exact List.length_eq_zero.1 this
      have := List.filter_eq_nil.1 h0 i hmem
      exact absurd hm this
    · rcases List.mem_singleton.1 hmem with rfl
      exact ⟨rfl, rfl⟩

/-- addToSyncQueue never creates a duplicate at any key: every key with
at most one row keeps at most one row. -/
theorem countPair_addToSyncQueue_le (st : DBState) (tid op : String)
    (d : Task) (nid : String) (now : Nat) (a b : String)
    (h1 : countPair st.sync_queue a b ≤ 1) :
    countPair (addToSyncQueue st tid op d nid now).sync_queue a b ≤ 1 := by
  simp only [addToSyncQueue, countPair] at h1 ⊢
  split
  · next hguard =>
    rw [List.countP_map]
    have : (matchesPair a b ∘ fun i =>
        if matchesPair tid op i = true then
          { i with data := d, retry_count := 0, updated_at := some now }
        else i) = matchesPair a b := by
      funext i
      by_cases hm : matchesPair tid op i = true <;>
        simp [hm, Function.comp, matchesPair_overwrite]
    rw [this]
    exact h1
  · next hguard =>
    rw [List.countP_append]
    by_cases hm : matchesPair a b
      { id := nid, task_id := tid, operation := op, data := d,
        created_at := now, updated_at := none, retry_count := 0,
        error_message := none, status := none } = true
    · have hab : tid = a ∧ op = b := by
        simpa [matchesPair] using hm
      rcases hab with ⟨rfl, rfl⟩
      have h0 : st.sync_queue.countP (matchesPair tid op) = 0 := by
        rw [List.countP_eq_length_filter]
        omega
      rw [h0, List.countP_cons, List.countP_nil, if_pos hm]
    · rw [List.countP_cons, List.countP_nil, if_neg hm]
      omega

/-- C3: addToSyncQueue is an idempotent upsert keyed on
(task id, operation): starting from any queue with at most one row for
the pair, two calls leave exactly one row for it, carrying the payload
of the latest call and a retry count of zero; and no key with at most
one row ever gains a duplicate. -/
theorem C3_addToSyncQueue_idempotent (st : DBState) (tid op : String)
    (d1 d2 : Task) (id1 id2 : String) (t1 t2 : Nat)
    (hq : countPair st.sync_queue tid op ≤ 1) :
    countPair (addToSyncQueue (addToSyncQueue st tid op d1 id1 t1)
      tid op d2 id2 t2).sync_queue tid op = 1 ∧
    (∀ i ∈ (addToSyncQueue (addToSyncQueue st tid op d1 id1 t1)
        tid op d2 id2 t2).sync_queue,
      matchesPair tid op i = true → i.data = d2 ∧ i.retry_count = 0) ∧
    (∀ a b, countPair st.sync_queue a b ≤ 1 →
      countPair (addToSyncQueue (addToSyncQueue st tid op d1 id1 t1)
        tid op d2 id2 t2).sync_queue a b ≤ 1) := by
  have hc1 : countPair (addToSyncQueue st tid op d1 id1 t1).sync_queue
      tid op = 1 := by
    rw [countPair_addToSyncQueue]
    split <;> omega
  refine ⟨?_, data_addToSyncQueue _ tid op d2 id2 t2, ?_⟩
  · rw [countPair_addToSyncQueue, hc1]
    simp
  · intro a b hab
    exact countPair_addToSyncQueue_le _ tid op d2 id2 t2 a b
      (countPair_addToSyncQueue_le st tid op d1 id1 t1 a b hab)

/-- C3 witness: two enqueues of the same pair on an empty queue leave
one row with the second payload. -/
theorem C3_witness :
    countPair (addToSyncQueue (addToSyncQueue ⟨[], []⟩ "t1" "create"
      taskA "q1" 1) "t1" "create" taskB "q2" 2).sync_queue
      "t1" "create" = 1 :=
  (C3_addToSyncQueue_idempotent ⟨[], []⟩ "t1" "create" taskA taskB
    "q1" "q2" 1 2 (by decide)).1

/-- processItem never changes the total counter. -/
theorem processItem_total (now : Nat) (results : List BatchResultItem)
    (acc : DBState × SyncResult) (item : SyncQueueItem) :
    (processItem now results acc item).2.total = acc.2.total := by
  rw [processItem]
  cases results.find? (fun r => r.localId = item.task_id) with
  | none => rfl
  | some r =>
    by_cases hs : r.success = true <;> by_cases hc : r.conflict = true <;>
      simp [hs, hc]

/-- Folding processItem over a batch never changes the total counter. -/
theorem foldl_processItem_total (now : Nat) (results : List BatchResultItem)
    (l : List SyncQueueItem) (acc : DBState × SyncResult) :
    ((l.foldl (processItem now results) acc).2.total = acc.2.total) := by
  induction l generalizing acc with
  | nil => rfl
  | cons x xs ih =>
    rw [List.foldl_cons, ih, processItem_total]

/-- The catch branch adds the batch size to failed and leaves the other
counters untouched. -/
theorem processErroredBatch_counts (now : Nat) (msg : String)
    (batch : List SyncQueueItem) (acc : DBState × SyncResult) :
    (processErroredBatch now msg acc batch).2.failed =
      acc.2.failed + batch.length ∧
    (processErroredBatch now msg acc batch).2.success = acc.2.success ∧
    (processErroredBatch now msg acc batch).2.conflicts = acc.2.conflicts ∧
    (processErroredBatch now msg acc batch).2.total = acc.2.total := by
  induction batch generalizing acc with
  | nil => exact ⟨rfl, rfl, rfl, rfl⟩
  | cons x xs ih =>
    simp only [processErroredBatch] at ih ⊢
    rw [List.foldl_cons]
    refine ⟨?_, (ih _).2.1, (ih _).2.2.1, (ih _).2.2.2⟩
    rw [(ih _).1]
    show acc.2.failed + 1 + xs.length = acc.2.failed + (xs.length + 1)
    omega

/-- One batch round never changes the total counter. -/
theorem processOneBatch_total (now : Nat)
    (transmit : List SyncQueueItem → Except String BatchSyncResponse)
    (acc : DBState × SyncResult) (batch : List SyncQueueItem) :
    (processOneBatch now transmit acc batch).2.total = acc.2.total := by
  rw [processOneBatch]
  cases transmit batch with
  | ok resp => exact foldl_processItem_total now resp.results batch acc
  | error msg => exact (processErroredBatch_counts now msg batch acc).2.2.2

/-- The whole batch loop never changes the total counter. -/
theorem foldl_processOneBatch_total (now : Nat)
    (transmit : List SyncQueueItem → Except String BatchSyncResponse)
    (batches : List (List SyncQueueItem)) (acc : DBState × SyncResult) :
    ((batches.foldl (processOneBatch now transmit) acc).2.total =
      acc.2.total) := by
  induction batches generalizing acc with
  | nil => rfl
  | cons b bs ih =>
    rw [List.foldl_cons, ih, processOneBatch_total]

/-- C4: the total of the SyncResult equals the number of items drained
at the start of the pass, for every positive batch size; in particular
25 drained items with batch size 10 make 3 batches and total 25. -/
theorem C4_sync_total (st : DBState) (bs : Nat)
    (transmit : List SyncQueueItem → Except String BatchSyncResponse)
    (now : Nat) (hbs : 0 < bs) :
    (sync st bs transmit now).2.total = (drainQueue st.sync_queue).length ∧
    (sync st bs transmit now).2.total = st.sync_queue.length ∧
    queue25.length = 25 ∧
    (makeBatches 10 queue25).length = 3 ∧
    (sync { tasks := [], sync_queue := queue25 } 10 transmit now).2.total
      = 25 := by
  have hlen : (drainQueue st.sync_queue).length = st.sync_queue.length :=
    (List.perm_insertionSort _ _).length_eq
  have h1 : ∀ (st0 : DBState) (bs0 : Nat),
      (sync st0 bs0 transmit now).2.total =
        (drainQueue st0.sync_queue).length := by
    intro st0 bs0
    simp only [sync]
    split
    · rfl
    · rw [foldl_processOneBatch_total]
  have h25 : (drainQueue queue25).length = queue25.length :=
    (List.perm_insertionSort _ _).length_eq
  refine ⟨h1 st bs, (h1 st bs).trans hlen, by decide, by decide, ?_⟩
  rw [h1 { tasks := [], sync_queue := queue25 } 10]
  rw [h25]
  decide

/-- C4 witness: the theorem at the retry scenario state. -/
theorem C4_witness :
    (sync c2St 10 errTransmit 100).2.total =
      (drainQueue c2St.sync_queue).length :=
  (C4_sync_total c2St 10 errTransmit 100 (by decide)).1

/-- With enough fuel and a positive size, the concatenation of the
batches gives back the list. -/
theorem makeBatchesFuel_join (size : Nat) (hs : 0 < size) :
    ∀ (fuel : Nat) (l : List SyncQueueItem), l.length ≤ fuel →
      (makeBatchesFuel size fuel l).flatten = l := by
  intro fuel
  induction fuel with
  | zero =>
    intro l hl
    have : l = [] := List.eq_nil_of_length_eq_zero (Nat.le_zero.1 hl)
    subst this
    rfl
  | succ fuel ih =>
    intro l hl
    cases l with
    | nil => rfl
    | cons x xs =>
      show ((x :: xs).take size :: makeBatchesFuel size fuel
        ((x :: xs).drop size)).flatten = x :: xs
      rw [List.flatten_cons]
      rw [ih ((x :: xs).drop size)
        (by simp only [List.length_drop, List.length_cons] at hl ⊢; omega)]
      exact List.take_append_drop size (x :: xs)

/-- Every batch produced by the fuel loop has at most size elements. -/
theorem makeBatchesFuel_size (size : Nat) :
    ∀ (fuel : Nat) (l : List SyncQueueItem) (b : List SyncQueueItem),
      b ∈ makeBatchesFuel size fuel l → b.length ≤ size := by
  intro fuel
  induction fuel with
  | zero =>
    intro l b hb
    cases l <;> simp [makeBatchesFuel] at hb
  | succ fuel ih =>
    intro l b hb
    cases l with
    | nil => simp [makeBatchesFuel] at hb
    | cons x xs =>
      have hb2 : b ∈ (x :: xs).take size :: makeBatchesFuel size fuel
          ((x :: xs).drop size) := hb
      rcases List.mem_cons.1 hb2 with rfl | hmem
      · rw [List.length_take]
        exact Nat.min_le_left _ _
      · exact ih _ b hmem

/-- C5: a sync pass drains the queue ordered by enqueue time oldest
first (a permutation of the queue, pairwise nondecreasing in
created_at) and partitions it into consecutive batches of at most the
configured size whose concatenation is the drained list. -/
theorem C5_drain_order_batches (q : List SyncQueueItem) (bs : Nat)
    (hbs : 0 < bs) :
    (makeBatches bs (drainQueue q)).flatten = drainQueue q ∧
    (∀ b ∈ makeBatches bs (drainQueue q), b.length ≤ bs) ∧
    List.Pairwise (fun a b => a.created_at ≤ b.created_at) (drainQueue q) ∧
    (drainQueue q).Perm q := by
  have hbs0 : bs ≠ 0 := Nat.pos_iff_ne_zero.1 hbs
  refine ⟨?_, ?_, ?_, List.perm_insertionSort _ _⟩
  · rw [makeBatches, if_neg hbs0]
    exact makeBatchesFuel_join bs hbs _ _ le_rfl
  · intro b hb
    rw [makeBatches, if_neg hbs0] at hb
    exact makeBatchesFuel_size bs _ _ b hb
  · exact List.sorted_insertionSort _ q

/-- C5 witness: the theorem at the 25-item queue with batch size 10. -/
theorem C5_witness :
    (makeBatches 10 (drainQueue queue25)).flatten = drainQueue queue25 :=
  (C5_drain_order_batches queue25 10 (by decide)).1

/-- C6: when the transmitter call for a batch throws instead of
returning per-item outcomes, every item of that batch goes through
handleSyncError (the catch branch folds it over the batch), failed
grows by the batch size, and no item is credited as success or
conflict. -/
theorem C6_batch_hard_failure (now : Nat)
    (transmit : List SyncQueueItem → Except String BatchSyncResponse)
    (acc : DBState × SyncResult) (batch : List SyncQueueItem)
    (msg : String) (h : transmit batch = Except.error msg) :
    processOneBatch now transmit acc batch =
      processErroredBatch now msg acc batch ∧
    (processOneBatch now transmit acc batch).2.failed =
      acc.2.failed + batch.length ∧
    (processOneBatch now transmit acc batch).2.success = acc.2.success ∧
    (processOneBatch now transmit acc batch).2.conflicts =
      acc.2.conflicts := by
  have he : processOneBatch now transmit acc batch =
      processErroredBatch now msg acc batch := by
    rw [processOneBatch, h]
  refine ⟨he, ?_, ?_, ?_⟩ <;> rw [he]
  · exact (processErroredBatch_counts now msg batch acc).1
  · exact (processErroredBatch_counts now msg batch acc).2.1
  · exact (processErroredBatch_counts now msg batch acc).2.2.1

/-- C6 witness: a throwing transmitter over a one-item batch counts one
failure. -/
theorem C6_witness :
    (processOneBatch 100 errTransmit
      (c2St, { success := 0, failed := 0, conflicts := 0, total := 1 })
      [c2Item]).2.failed = 1 := by
  have h := C6_batch_hard_failure 100 errTransmit
    (c2St, { success := 0, failed := 0, conflicts := 0, total := 1 })
    [c2Item] "network down" rfl
  simpa using h.2.1

/-- C7: an item whose batch response has no entry with its task id, or
an entry reporting neither success nor conflict, is routed to
handleSyncError as an error outcome counted in failed, with the message
defaulting to the Unknown error string when no error text is present. -/
theorem C7_missing_entry_is_error (now : Nat)
    (results : List BatchResultItem) (acc : DBState × SyncResult)
    (item : SyncQueueItem) :
    (results.find? (fun x => x.localId = item.task_id) = none →
      processItem now results acc item =
        (handleSyncError acc.1 item "Unknown error" now,
         { acc.2 with failed := acc.2.failed + 1 })) ∧
    (∀ r, results.find? (fun x => x.localId = item.task_id) = some r →
      r.success = false → r.conflict = false →
      processItem now results acc item =
        (handleSyncError acc.1 item (errorOrUnknown r.error) now,
         { acc.2 with failed := acc.2.failed + 1 })) ∧
    (∀ r, results.find? (fun x => x.localId = item.task_id) = some r →
      r.success = false → r.conflict = false → r.error = none →
      processItem now results acc item =
        (handleSyncError acc.1 item "Unknown error" now,
         { acc.2 with failed := acc.2.failed + 1 })) := by
  refine ⟨fun h => ?_, fun r h hs hc => ?_, fun r h hs hc he => ?_⟩
  · rw [processItem, h]
  · rw [processItem, h]
    simp [hs, hc]
  · rw [processItem, h]
    simp [hs, hc, he, errorOrUnknown]

/-- C7 witness: a missing entry and a success-less conflict-less entry
both fall back to the Unknown error path. -/
theorem C7_witness :
    processItem 100 [] ((c2St,
      { success := 0, failed := 0, conflicts := 0, total := 1 }) :
        DBState × SyncResult) c2Item =
      (handleSyncError c2St c2Item "Unknown error" 100,
       { success := 0, failed := 1, conflicts := 0, total := 1 }) ∧
    processItem 100 c7Results ((c2St,
      { success := 0, failed := 0, conflicts := 0, total := 1 }) :
        DBState × SyncResult) c2Item =
      (handleSyncError c2St c2Item "Unknown error" 100,
       { success := 0, failed := 1, conflicts := 0, total := 1 }) := by
  constructor
  · exact (C7_missing_entry_is_error 100 []
      (c2St, { success := 0, failed := 0, conflicts := 0, total := 1 })
      c2Item).1 rfl
  · exact (C7_missing_entry_is_error 100 c7Results
      (c2St, { success := 0, failed := 0, conflicts := 0, total := 1 })
      c2Item).2.2 c7Entry rfl rfl rfl rfl

/-- Every task row matching the updated id after updateSyncStatus shows
the new status, the sync timestamp when the status is synced, and the
server id when the server data carries a truthy one. -/
theorem updateSyncStatus_mem (tasks : List Task) (tid status : String)
    (sd : Option Task) (now : Nat) :
    ∀ t ∈ updateSyncStatus tasks tid status sd now, t.id = tid →
      t.sync_status = status ∧
      (status = "synced" → t.last_synced_at = some now) ∧
      (∀ s, sd = some s → ¬ s.id = "" → t.server_id = some s.id) := by
  intro t ht hid
  rcases List.mem_map.1 ht with ⟨t0, _, rfl⟩
  by_cases h0 : t0.id = tid
  · refine ⟨by simp [h0], fun hs => by simp [h0, hs],
      fun s hsd hne => by simp [h0, hsd, hne]⟩
  · simp [h0] at hid

/-- C8: a success entry marks the task synced with the server id and
sync timestamp recorded, removes the queue row, and increments only the
success counter; a single pending create synced successfully gives
SyncResult (1, 0, 0, 1) and an empty queue. -/
theorem C8_success_outcome (now : Nat) (results : List BatchResultItem)
    (acc : DBState × SyncResult) (item : SyncQueueItem)
    (r : BatchResultItem)
    (hf : results.find? (fun x => x.localId = item.task_id) = some r)
    (hs : r.success = true) :
    (processItem now results acc item).2 =
      { acc.2 with success := acc.2.success + 1 } ∧
    (processItem now results acc item).1.sync_queue =
      acc.1.sync_queue.filter (fun q => !(q.id = item.id)) ∧
    (∀ t ∈ (processItem now results acc item).1.tasks,
      t.id = item.task_id →
        t.sync_status = "synced" ∧ t.last_synced_at = some now ∧
        (∀ s, r.data = some s → ¬ s.id = "" → t.server_id = some s.id)) ∧
    (sync { tasks := [taskA], sync_queue := [demoItem] } 10 demoTransmit
        200).2 = { success := 1, failed := 0, conflicts := 0, total := 1 } ∧
    (sync { tasks := [taskA], sync_queue := [demoItem] } 10 demoTransmit
        200).1.sync_queue = [] ∧
    (∀ t ∈ (sync { tasks := [taskA], sync_queue := [demoItem] } 10
        demoTransmit 200).1.tasks, t.sync_status = "synced") := by
  have hp : processItem now results acc item =
      ({ tasks := updateSyncStatus acc.1.tasks item.task_id "synced"
           r.data now,
         sync_queue := acc.1.sync_queue.filter
           (fun q => !(q.id = item.id)) },
       { acc.2 with success := acc.2.success + 1 }) := by
    rw [processItem, hf]
    simp [hs]
  refine ⟨by rw [hp], by rw [hp], ?_, by decide, by decide, by decide⟩
  rw [hp]
  intro t ht hid
  have h2 := updateSyncStatus_mem acc.1.tasks item.task_id "synced"
    r.data now t ht hid
  exact ⟨h2.1, h2.2.1 rfl, h2.2.2⟩

/-- C8 witness: the theorem at the one-item demo state. -/
theorem C8_witness :
    (processItem 200 [demoEntry] ((⟨[taskA], [demoItem]⟩ : DBState),
      ({ success := 0, failed := 0, conflicts := 0, total := 1 } :
        SyncResult)) demoItem).2 =
      { success := 1, failed := 0, conflicts := 0, total := 1 } := by
  have h := C8_success_outcome 200 [demoEntry]
    (⟨[taskA], [demoItem]⟩,
      { success := 0, failed := 0, conflicts := 0, total := 1 })
    demoItem demoEntry rfl rfl
  exact h.1

/-- C2 (amended): on an error outcome, reaching the retry ceiling of 3
keeps the queue row with status failed, the new retry count and the
error message, and forces the task to error status; below the ceiling
the row keeps exactly the incremented retry count and the message and
the task table is untouched. In both cases the row stays in the queue
(same length) and is present in the next drain, so even a permanently
failed item is still attempted by later sync passes. -/
theorem C2_handleSyncError_retry (st : DBState) (item : SyncQueueItem)
    (msg : String) (now : Nat) (hmem : item ∈ st.sync_queue) :
    (item.retry_count + 1 ≥ 3 →
      (∀ q ∈ (handleSyncError st item msg now).sync_queue,
        q.id = item.id → q.retry_count = item.retry_count + 1 ∧
          q.error_message = some msg ∧ q.status = some "failed") ∧
      (∀ t ∈ (handleSyncError st item msg now).tasks,
        t.id = item.task_id → t.sync_status = "error")) ∧
    (item.retry_count + 1 < 3 →
      (handleSyncError st item msg now).tasks = st.tasks ∧
      ({ item with retry_count := item.retry_count + 1,
                   error_message := some msg,
                   updated_at := some now } ∈
        (handleSyncError st item msg now).sync_queue) ∧
      (∀ q ∈ (handleSyncError st item msg now).sync_queue,
        q.id = item.id → q.retry_count = item.retry_count + 1 ∧
          q.error_message = some msg)) ∧
    (handleSyncError st item msg now).sync_queue.length =
      st.sync_queue.length ∧
    (∃ q ∈ drainQueue (handleSyncError st item msg now).sync_queue,
      q.id = item.id ∧ q.retry_count = item.retry_count + 1) := by
  have hmr : MAX_RETRIES = 3 := rfl
  refine ⟨fun h3 => ?_, fun h3 => ?_, ?_, ?_⟩
  · have hif : handleSyncError st item msg now =
        { tasks := updateSyncStatus st.tasks item.task_id "error" none now
          sync_queue := st.sync_queue.map fun q =>
            if q.id = item.id then
              { q with retry_count := item.retry_count + 1,
                       error_message := some msg,
                       status := some "failed", updated_at := some now }
            else q } := by
      rw [handleSyncError, if_pos]
      rw [hmr]
      exact h3
    rw [hif]
    constructor
    · intro q hq hid
      rcases List.mem_map.1 hq with ⟨q0, _, rfl⟩
      by_cases h0 : q0.id = item.id
      · simp [h0]
      · simp [h0] at hid
    · intro t ht hid
      exact (updateSyncStatus_mem st.tasks item.task_id "error"
        none now t ht hid).1
  · have hif : handleSyncError st item msg now =
        { st with sync_queue := st.sync_queue.map fun q =>
            if q.id = item.id then
              { q with retry_count := item.retry_count + 1,
                       error_message := some msg, updated_at := some now }
            else q } := by
      rw [handleSyncError, if_neg]
      rw [hmr]
      omega
    rw [hif]
    refine ⟨rfl, ?_, ?_⟩
    · have := List.mem_map_of_mem (fun q =>
        if q.id = item.id then
          { q with retry_count := item.retry_count + 1,
                   error_message := some msg, updated_at := some now }
        else q) hmem
      simpa using this
    · intro q hq hid
      rcases List.mem_map.1 hq with ⟨q0, hq0, rfl⟩
      by_cases h0 : q0.id = item.id
      · simp [h0]
      · simp [h0] at hid
  · rw [handleSyncError]
    split <;> simp
  · by_cases hceil : item.retry_count + 1 ≥ MAX_RETRIES
    · refine ⟨{ item with retry_count := item.retry_count + 1,
                          error_message := some msg,
                          status := some "failed",
                          updated_at := some now }, ?_, rfl, rfl⟩
      have hmm : ({ item with retry_count := item.retry_count + 1,
                              error_message := some msg,
                              status := some "failed",
                              updated_at := some now } : SyncQueueItem) ∈
          (handleSyncError st item msg now).sync_queue := by
        rw [handleSyncError, if_pos hceil]
        have := List.mem_map_of_mem (fun q =>
          if q.id = item.id then
            { q with retry_count := item.retry_count + 1,
                     error_message := some msg,
                     status := some "failed", updated_at := some now }
          else q) hmem
        simpa using this
      exact (List.mem_insertionSort _).2 hmm
    · refine ⟨{ item with retry_count := item.retry_count + 1,
                          error_message := some msg,
                          updated_at := some now }, ?_, rfl, rfl⟩
      have hmm : ({ item with retry_count := item.retry_count + 1,
                              error_message := some msg,
                              updated_at := some now } : SyncQueueItem) ∈
          (handleSyncError st item msg now).sync_queue := by
        rw [handleSyncError, if_neg hceil]
        have := List.mem_map_of_mem (fun q =>
          if q.id = item.id then
            { q with retry_count := item.retry_count + 1,
                     error_message := some msg, updated_at := some now }
          else q) hmem
        simpa using this
      exact (List.mem_insertionSort _).2 hmm

/-- C2 counterexample: a queue item with two prior failures receives a
third error outcome; it is kept with status failed and the task flips
to error, as claimed, but the next sync pass still drains it (total 1)
and attempts it again, pushing the retry count to 4 — so it is not
removed from active retry as the claim states. -/
theorem C2_counterexample :
    ((c2St1.sync_queue.map fun q => (q.retry_count, q.status)) =
      [(3, some "failed")]) ∧
    ((c2St1.tasks.map fun t => t.sync_status) = ["error"]) ∧
    (sync c2St1 10 errTransmit 200).2.total = 1 ∧
    ((sync c2St1 10 errTransmit 200).1.sync_queue.map
      fun q => q.retry_count) = [4] := by
  decide

/-- C2 witness: the amended theorem at the concrete ceiling scenario. -/
theorem C2_witness :
    (∀ q ∈ (handleSyncError c2St c2Item "boom" 100).sync_queue,
      q.id = c2Item.id → q.status = some "failed") ∧
    (∃ q ∈ drainQueue (handleSyncError c2St c2Item "boom" 100).sync_queue,
      q.id = c2Item.id ∧ q.retry_count = c2Item.retry_count + 1) := by
  have h := C2_handleSyncError_retry c2St c2Item "boom" 100 (by decide)
  exact ⟨fun q hq hid => ((h.1 (by decide)).1 q hq hid).2.2, h.2.2.2⟩

end SyncSpec
